import Mathlib

/-!
Verification development for the FixieDashBrooklyn cycling game core.

The Python source is shallowly embedded: Python floats are modelled as
exact rationals (`ℚ`), timestamps in milliseconds as integers (`ℤ`),
Python's `int(...)` conversion as truncation toward zero (`pyInt`), and
Python dicts as association lists.  Stateful methods become pure
state-passing functions.
-/

namespace FixieDash

/-- Python's `int(...)` on a float truncates toward zero. -/
def pyInt (q : ℚ) : ℤ :=
  if q < 0 then -((-q).floor) else q.floor

theorem ratFloor_eq_intFloor (q : ℚ) : q.floor = ⌊q⌋ := by
  rw [Rat.floor_def', Rat.floor_def]

theorem pyInt_of_nonneg {q : ℚ} (h : 0 ≤ q) : pyInt q = ⌊q⌋ := by
  simp [pyInt, not_lt.mpr h, ratFloor_eq_intFloor]

theorem pyInt_eq_of_nonneg (z : ℤ) (q : ℚ) (h0 : 0 ≤ q) (h1 : (z : ℚ) ≤ q)
    (h2 : q < z + 1) : pyInt q = z := by
  rw [pyInt_of_nonneg h0]
  exact Int.floor_eq_iff.mpr ⟨h1, by exact_mod_cast h2⟩

theorem pyInt_eq_of_nonpos (z : ℤ) (q : ℚ) (h0 : q ≤ 0) (h1 : q ≤ z)
    (h2 : (z : ℚ) - 1 < q) : pyInt q = z := by
  rcases lt_or_eq_of_le h0 with hneg | hzero
  · have hfl : (-q).floor = -z := by
      rw [ratFloor_eq_intFloor]
      refine Int.floor_eq_iff.mpr ⟨by push_cast; linarith, ?_⟩
      push_cast
      linarith
    simp [pyInt, hneg, hfl]
  · subst hzero
    have h1' : (0 : ℤ) ≤ z := by exact_mod_cast h1
    have h2' : (z : ℤ) < 1 := by
      have : (z : ℚ) < 1 := by linarith
      exact_mod_cast this
    have hz : z = 0 := by omega
    subst hz
    simp [pyInt, ratFloor_eq_intFloor]

/-! ## Physics (src/client/game/core/physics.py) -/

/-- Embedding of the `PhysicsState` dataclass with its default values. -/
structure PhysicsState where
  speed : ℚ := 0
  distance_traveled : ℚ := 0
  stamina : ℚ := 100
  last_pedal_side : Option String := none
  last_pedal_time : ℤ := 0
  last_pedal_interval : ℤ := 0
deriving Repr, DecidableEq

/-- Fixed physics parameters assigned in `Physics.__init__`. -/
def min_speed : ℚ := 0

def min_moving_speed : ℚ := 1

def max_stamina : ℚ := 100

def min_stamina : ℚ := 0

def min_pedal_interval : ℤ := 150

def max_pedal_interval : ℤ := 3000

/-- The `Physics` object: the (re-assigned) `max_speed` attribute plus the
mutable `PhysicsState`. -/
structure Physics where
  max_speed : ℚ
  state : PhysicsState
deriving Repr, DecidableEq

/-- Embeds `Physics.__init__(max_speed)`.  The constructor stores the argument but
then re-assigns `self.max_speed = 35.0` in the parameter block, so the
argument is discarded; `speed_at_0ms` is computed after that re-assignment. -/
def Physics.init (_max_speed_arg : ℚ) : Physics :=
  { max_speed := 35, state := {} }

/-- Derived `self.speed_at_0ms`, computed from the (re-assigned) `max_speed`
and the interval bounds. -/
def Physics.speed_at_0ms (p : Physics) : ℚ :=
  p.max_speed
    + p.max_speed * (min_pedal_interval : ℚ)
      / ((max_pedal_interval : ℚ) - (min_pedal_interval : ℚ))

/-- Embeds `Physics.reset`. -/
def Physics.reset (p : Physics) : Physics :=
  { p with state := {} }

/-- Embeds `Physics.get_curr_interval`: expected pedal interval for the current
speed, truncated by Python's `int(...)`. -/
def Physics.get_curr_interval (p : Physics) : ℤ :=
  pyInt
    ((p.speed_at_0ms - p.state.speed)
      * ((max_pedal_interval : ℚ) - (min_pedal_interval : ℚ)) / p.max_speed)

/-- Embeds `Physics.get_time_since_last_pedal`. -/
def Physics.get_time_since_last_pedal (p : Physics) (current_time : ℤ) : ℤ :=
  if p.state.last_pedal_time = 0 then 0
  else current_time - p.state.last_pedal_time

/-- Embeds `Physics.get_last_pedal_interval`. -/
def Physics.get_last_pedal_interval (p : Physics) : ℤ :=
  p.state.last_pedal_interval

/-- Embeds `Physics.predict_speed_change`. -/
def Physics.predict_speed_change (p : Physics) (current_time : ℤ) : ℚ :=
  if p.state.last_pedal_time = 0 then min_moving_speed
  else
    let new_interval : ℤ := current_time - p.state.last_pedal_time
    let speed_for_interval : ℚ :=
      p.speed_at_0ms - (new_interval : ℚ) * p.max_speed
        / ((max_pedal_interval : ℚ) - (min_pedal_interval : ℚ))
    if new_interval < min_pedal_interval then 0
    else speed_for_interval - p.state.speed

/-- Embeds `Physics.predict_stamina_change`. -/
def Physics.predict_stamina_change (p : Physics) (current_time : ℤ) : ℚ :=
  if p.state.last_pedal_time = 0 then 0
  else
    let new_interval : ℤ := current_time - p.state.last_pedal_time
    let current_interval : ℤ := p.get_curr_interval
    if new_interval < min_pedal_interval then -100
    else
      let timing_diff : ℤ := new_interval - current_interval
      if timing_diff > 0 then
        (pyInt ((-3 : ℚ) / 40 * (timing_diff : ℚ) + 15) : ℚ)
      else
        (pyInt ((3 : ℚ) / 40 * ((timing_diff : ℚ) + 200)) : ℚ)

/-- Embeds `Physics.handle_pedal`: returns the acceptance flag together with the
updated object (the Python method mutates `self.state`). -/
def Physics.handle_pedal (p : Physics) (side : String) (current_time : ℤ) :
    Bool × Physics :=
  if p.state.last_pedal_side = some side then
    (false, p)
  else
    let st := p.state
    let st1 :=
      if st.last_pedal_time > 0 then
        let stamina_change := p.predict_stamina_change current_time
        let speed_change := p.predict_speed_change current_time
        { st with
            speed := min (max min_speed (st.speed + speed_change)) p.max_speed,
            stamina := min (max min_stamina (st.stamina + stamina_change)) max_stamina }
      else
        { st with speed := min_moving_speed }
    (true,
      { p with
          state :=
            { st1 with
                last_pedal_side := some side,
                last_pedal_time := current_time } })

/-- Embeds `Physics.update`: stall penalty (early return, distance untouched) or
distance accumulation. -/
def Physics.update (p : Physics) (dt : ℚ) (current_time : ℤ) : Physics :=
  if p.state.last_pedal_time > 0
      ∧ current_time - p.state.last_pedal_time > max_pedal_interval then
    { p with state := { p.state with stamina := min_stamina } }
  else if p.state.speed > 0 then
    { p with
        state :=
          { p.state with
              distance_traveled :=
                p.state.distance_traveled + p.state.speed * 10 * (dt / 1000) } }
  else p

/-- Embeds `Physics.get_speed_mph`. -/
def Physics.get_speed_mph (p : Physics) : ℚ := p.state.speed

/-- Embeds `Physics.get_distance_meters`. -/
def Physics.get_distance_meters (p : Physics) : ℚ :=
  p.state.distance_traveled / 3

/-- Embeds `Physics.get_stamina`. -/
def Physics.get_stamina (p : Physics) : ℚ := p.state.stamina

/-! Operation alphabet on the physics engine, for "any sequence of
operations" claims.  The predict accessors are pure functions and do not
change the state, so they do not appear as operations. -/

inductive PhysOp where
  | reset : PhysOp
  | pedal (side : String) (t : ℤ) : PhysOp
  | tick (dt : ℚ) (t : ℤ) : PhysOp
deriving Repr, DecidableEq

def Physics.applyOp (p : Physics) : PhysOp → Physics
  | PhysOp.reset => p.reset
  | PhysOp.pedal side t => (p.handle_pedal side t).2
  | PhysOp.tick dt t => p.update dt t

def Physics.applyOps (p : Physics) (ops : List PhysOp) : Physics :=
  ops.foldl Physics.applyOp p

/-! ## Association lists: embedding of Python dicts (insertion replaces the
first binding of the key, otherwise appends) and of the `completed_levels`
set. -/

def alookup {α : Type} (m : List (ℤ × α)) (k : ℤ) : Option α :=
  match m with
  | [] => none
  | (k', v) :: rest => if k' = k then some v else alookup rest k

def ainsert {α : Type} (m : List (ℤ × α)) (k : ℤ) (v : α) : List (ℤ × α) :=
  match m with
  | [] => [(k, v)]
  | (k', v') :: rest =>
      if k' = k then (k', v) :: rest else (k', v') :: ainsert rest k v

/-- Embeds `set.add` for the `completed_levels` set. -/
def setAdd (s : List ℤ) (k : ℤ) : List ℤ :=
  if k ∈ s then s else s ++ [k]

theorem alookup_ainsert {α : Type} (m : List (ℤ × α)) (k : ℤ) (v : α) :
    alookup (ainsert m k v) k = some v := by
  induction m with
  | nil => simp [ainsert, alookup]
  | cons hd tl ih =>
      obtain ⟨k', v'⟩ := hd
      by_cases h : k' = k <;> simp [ainsert, alookup, h, ih]

theorem alookup_ainsert_ne {α : Type} (m : List (ℤ × α)) (k k' : ℤ) (v : α)
    (h : k ≠ k') : alookup (ainsert m k v) k' = alookup m k' := by
  induction m with
  | nil => simp [ainsert, alookup, h]
  | cons hd tl ih =>
      obtain ⟨k0, v0⟩ := hd
      by_cases h0 : k0 = k
      · subst h0
        simp [ainsert, alookup, h]
      · simp only [ainsert, if_neg h0]
        by_cases h1 : k0 = k' <;> simp [alookup, h1, ih]

theorem ainsert_ainsert {α : Type} (m : List (ℤ × α)) (k : ℤ) (v w : α) :
    ainsert (ainsert m k v) k w = ainsert m k w := by
  induction m with
  | nil => simp [ainsert]
  | cons hd tl ih =>
      obtain ⟨k', v'⟩ := hd
      by_cases h : k' = k <;> simp [ainsert, h, ih]

/-! ## GameStats (src/client/game/services/game_service.py), with the
implicit `pygame.time.get_ticks()` clock passed as an explicit `now`
parameter. -/

/-- Embedding of the `GameStats` dataclass (the `__post_init__` empty-dict
defaults are the empty lists). -/
structure GameStats where
  max_speed_reached : ℚ := 0
  total_pedals : ℤ := 0
  successful_pedals : ℤ := 0
  start_time : ℤ := 0
  level_start_times : List (ℤ × ℤ) := []
  level_completion_times : List (ℤ × ℚ) := []
  level_end_times : List (ℤ × ℤ) := []
  level_started : List (ℤ × Bool) := []
  completed_levels : List ℤ := []
deriving Repr, DecidableEq

/-- Embeds `GameStats.completion_time` property. -/
def GameStats.completion_time (s : GameStats) (now : ℤ) : ℚ :=
  ((now : ℚ) - (s.start_time : ℚ)) / 1000

/-- Embeds `GameStats.total_completion_time` property: sum of the
`level_completion_times` dict values. -/
def GameStats.total_completion_time (s : GameStats) : ℚ :=
  (s.level_completion_times.map Prod.snd).sum

/-- Embeds `GameStats.success_ratio` property. -/
def GameStats.success_ratio (s : GameStats) : ℚ :=
  if s.total_pedals = 0 then 0
  else ((s.successful_pedals : ℚ) / (s.total_pedals : ℚ)) * 100

/-- Embeds `GameStats.prepare_level`. -/
def GameStats.prepare_level (s : GameStats) (level : ℤ) : GameStats :=
  { s with level_started := ainsert s.level_started level false }

/-- Embeds `GameStats.start_level_timer`. -/
def GameStats.start_level_timer (s : GameStats) (level : ℤ) (now : ℤ) :
    GameStats :=
  if (alookup s.level_started level).getD false = false then
    { s with
        level_start_times := ainsert s.level_start_times level now,
        level_started := ainsert s.level_started level true }
  else s

/-- Embeds `GameStats.end_level`. -/
def GameStats.end_level (s : GameStats) (level : ℤ) (now : ℤ) : GameStats :=
  if (alookup s.level_start_times level).isSome
      ∧ (alookup s.level_started level).getD false = true then
    { s with level_end_times := ainsert s.level_end_times level now }
  else s

/-- Embeds `GameStats.complete_level`, returning the completion time together with
the updated stats. -/
def GameStats.complete_level (s : GameStats) (level : ℤ) (now : ℤ) :
    ℚ × GameStats :=
  match alookup s.level_start_times level with
  | some start =>
      if (alookup s.level_started level).getD false = true then
        let ct : ℚ := ((now : ℚ) - (start : ℚ)) / 1000
        (ct,
          { s with
              level_completion_times := ainsert s.level_completion_times level ct,
              completed_levels := setAdd s.completed_levels level,
              level_end_times := ainsert s.level_end_times level now })
      else (0, s)
  | none => (0, s)

/-- Embeds `GameStats.get_current_level_time`. -/
def GameStats.get_current_level_time (s : GameStats) (level : ℤ) (now : ℤ) :
    ℚ :=
  match alookup s.level_start_times level with
  | some start =>
      if (alookup s.level_started level).getD false = true then
        match alookup s.level_end_times level with
        | some e => ((e : ℚ) - (start : ℚ)) / 1000
        | none => ((now : ℚ) - (start : ℚ)) / 1000
      else 0
  | none => 0

/-! ## GameService (src/client/game/services/game_service.py)

Only the simulation-core fields are embedded.  The presentation and
collaborator objects (`screen`, `cyclist`, `background_service`,
`physics_bars`, the feedback message fields, the celebratory image) and the
backend session client are outside the core: they never feed back into the
fields below except through `_end_game`'s report, which is modelled
separately by `end_game_report`.  The implicit `pygame.time.get_ticks()`
clock is an explicit `now : ℤ` parameter. -/

structure GameService where
  game_over : Bool := false
  paused : Bool := false
  current_level : ℤ := 1
  level_complete : Bool := false
  all_levels_complete : Bool := false
  level_start_distance : ℚ := 0
  game_over_reason : String := ""
  physics : Physics
  stats : GameStats
deriving Repr, DecidableEq

/-- The `LEVEL_DISTANCES` class constant. -/
def LEVEL_DISTANCES : List (ℤ × ℚ) :=
  [(1, 1000), (2, 1500), (3, 2000), (4, 2500)]

/-- Embeds `GameService.get_level_target_distance` (a lookup in the class constant
with the documented fallback of 1000). -/
def get_level_target_distance (level : ℤ) : ℚ :=
  (alookup LEVEL_DISTANCES level).getD 1000

/-- Embeds `GameService.__init__(..., level)`: the core fields it assigns.  The
physics engine is constructed with `max_speed=25.0` and the stats with
`start_time = now`; `prepare_level(level)` is called on the fresh stats. -/
def GameService.init (level : ℤ) (now : ℤ) : GameService :=
  { physics := Physics.init 25,
    current_level := level,
    stats := GameStats.prepare_level { start_time := now } level }

/-- Embeds `GameService.get_level_progress`. -/
def GameService.get_level_progress (svc : GameService) : ℚ :=
  min (svc.physics.get_distance_meters
        / get_level_target_distance svc.current_level) 1

/-- Embeds `GameService.get_total_distance_traveled`. -/
def GameService.get_total_distance_traveled (svc : GameService) : ℚ :=
  (svc.stats.completed_levels.map get_level_target_distance).sum
    + (if ¬svc.level_complete then svc.physics.get_distance_meters
       else if svc.current_level ∈ svc.stats.completed_levels then 0
       else get_level_target_distance svc.current_level)

/-- Embeds `GameService.get_total_time`. -/
def GameService.get_total_time (svc : GameService) (now : ℤ) : ℚ :=
  svc.stats.total_completion_time
    + (if ¬svc.level_complete
          ∧ (alookup svc.stats.level_start_times svc.current_level).isSome then
         GameStats.get_current_level_time svc.stats svc.current_level now
       else 0)

/-- Embeds `GameService.handle_pedal_input`, returning the acceptance flag and the
updated service.  The cyclist animation and feedback-message updates are
presentation-only and omitted. -/
def GameService.handle_pedal_input (svc : GameService) (side : String)
    (now : ℤ) : Bool × GameService :=
  if svc.game_over ∨ svc.paused ∨ svc.level_complete then
    (false, svc)
  else
    let stats1 := GameStats.start_level_timer svc.stats svc.current_level now
    let stats2 := { stats1 with total_pedals := stats1.total_pedals + 1 }
    let r := svc.physics.handle_pedal side now
    if r.1 then
      let stats3 :=
        { stats2 with
            successful_pedals := stats2.successful_pedals + 1,
            max_speed_reached :=
              if r.2.state.speed > stats2.max_speed_reached then r.2.state.speed
              else stats2.max_speed_reached }
      (true, { svc with physics := r.2, stats := stats3 })
    else
      (false, { svc with physics := r.2, stats := stats2 })

/-- Embeds `GameService.set_level` (background/cyclist repositioning omitted). -/
def GameService.set_level (svc : GameService) (level : ℤ) : GameService :=
  { svc with
      current_level := level,
      level_complete := false,
      physics := svc.physics.reset,
      level_start_distance := 0,
      stats := GameStats.prepare_level svc.stats level }

/-- Embeds `GameService._complete_level`. -/
def GameService.complete_level (svc : GameService) (now : ℤ) : GameService :=
  if ¬svc.level_complete then
    { svc with
        level_complete := true,
        stats := ( GameStats.complete_level svc.stats svc.current_level now).2 }
  else svc

/-- Embeds `GameService._check_level_completion`. -/
def GameService.check_level_completion (svc : GameService) (now : ℤ) :
    GameService :=
  if svc.level_complete ∨ svc.all_levels_complete then svc
  else if svc.physics.get_distance_meters
      ≥ get_level_target_distance svc.current_level then
    svc.complete_level now
  else svc

/-- Embeds `GameService.toggle_pause`. -/
def GameService.toggle_pause (svc : GameService) : GameService :=
  { svc with paused := !svc.paused }

/-- Embeds `GameService._end_game`: sets the game-over flag and freezes the current
level's timer.  The backend notification is the separate `end_game_report`
below. -/
def GameService.end_game (svc : GameService) (now : ℤ) : GameService :=
  let svc1 := { svc with game_over := true }
  if ¬svc.level_complete
      ∧ (alookup svc.stats.level_start_times svc.current_level).isSome then
    { svc1 with
        stats := GameStats.end_level svc1.stats svc1.current_level now }
  else svc1

/-- The aggregate totals `_end_game` hands to
`api_client.end_game_session(session_id, max_speed_reached, total_distance,
total_time)`, computed on the post-`_end_game` state as in the source. -/
def GameService.end_game_report (svc : GameService) (now : ℤ) : ℚ × ℚ × ℚ :=
  let svc1 := svc.end_game now
  (svc1.stats.max_speed_reached,
   svc1.get_total_distance_traveled,
   svc1.get_total_time now)

/-- Embeds `GameService._check_game_over_conditions`. -/
def GameService.check_game_over_conditions (svc : GameService) (now : ℤ) :
    GameService :=
  if svc.game_over ∨ svc.level_complete ∨ svc.all_levels_complete then svc
  else if svc.physics.state.last_pedal_time > 0
      ∧ now - svc.physics.state.last_pedal_time > max_pedal_interval then
    GameService.end_game
      { svc with game_over_reason := "You stopped pedaling for too long!" } now
  else if svc.physics.get_stamina ≤ 0 then
    GameService.end_game
      { svc with game_over_reason := "You ran out of stamina!" } now
  else svc

/-- Embeds `GameService.update` (one tick).  The background scrolling, cyclist
positioning and message-timer updates are presentation-only and omitted;
in particular the `all_levels_complete` branch only moves the cyclist
sprite (its off-screen `_end_game` trigger depends on screen geometry and
is outside the embedded core). -/
def GameService.update (svc : GameService) (dt : ℚ) (now : ℤ) : GameService :=
  if svc.game_over ∨ svc.paused then svc
  else if ¬svc.level_complete then
    let svc1 := { svc with physics := svc.physics.update dt now }
    let svc2 := svc1.check_game_over_conditions now
    if svc2.game_over then svc2
    else svc2.check_level_completion now
  else svc

/-- Embeds `GameService.handle_enter_key`. -/
def GameService.handle_enter_key (svc : GameService) : GameService :=
  if svc.level_complete ∧ ¬svc.all_levels_complete then
    if svc.current_level < 4 then svc.set_level (svc.current_level + 1)
    else { svc with all_levels_complete := true }
  else svc

/-- Embeds `GameService.restart` (core fields; presentation resets omitted). -/
def GameService.restart (svc : GameService) (now : ℤ) : GameService :=
  { svc with
      game_over := false,
      paused := false,
      level_complete := false,
      all_levels_complete := false,
      level_start_distance := 0,
      game_over_reason := "",
      current_level := 1,
      physics := svc.physics.reset,
      stats := GameStats.prepare_level { start_time := now } 1 }

/-! ## Spec-side formulas

These definitions follow the spec's words (for refinement-style claims);
they are compared against the source-derived definitions above. -/

/-- Spec formula: `speed_at_zero_ms = max_speed + max_speed*min_pedal_interval
/(max_pedal_interval-min_pedal_interval)`. -/
def spec_speed_at_zero_ms (ms : ℚ) : ℚ :=
  ms + ms * (min_pedal_interval : ℚ)
    / ((max_pedal_interval : ℚ) - (min_pedal_interval : ℚ))

/-- Spec formula: `speed_for_interval = speed_at_zero_ms - interval *
max_speed / (max_pedal_interval - min_pedal_interval)`. -/
def spec_speed_for_interval (ms : ℚ) (interval : ℚ) : ℚ :=
  spec_speed_at_zero_ms ms
    - interval * ms / ((max_pedal_interval : ℚ) - (min_pedal_interval : ℚ))

/-- Spec description of `predict_stamina_change` (claim C4): 0 if never
pedaled; -100 if the interval is below `min_pedal_interval`; otherwise with
`diff = interval - get_curr_interval()` the branch formulas `-0.075*diff + 15`
(diff > 0) and `0.075*(diff + 200)` (diff <= 0), truncated to integer. -/
def spec_stamina_change (p : Physics) (now : ℤ) : ℚ :=
  if p.state.last_pedal_time = 0 then 0
  else
    let interval : ℤ := now - p.state.last_pedal_time
    if interval < min_pedal_interval then -100
    else
      let diff : ℤ := interval - p.get_curr_interval
      if diff > 0 then (pyInt (-(75 / 1000) * (diff : ℚ) + 15) : ℚ)
      else (pyInt ((75 / 1000) * ((diff : ℚ) + 200)) : ℚ)

/-- Spec description of `success_ratio` (claim C7): `successful_pedals /
total_pedals`, and 0 when there are no attempts. -/
def spec_success_ratio (s : GameStats) : ℚ :=
  if s.total_pedals = 0 then 0
  else (s.successful_pedals : ℚ) / (s.total_pedals : ℚ)

/-! ## Physics invariants -/

/-- The clamping invariant of claim C2. -/
def SpeedStaminaBounds (p : Physics) : Prop :=
  min_speed ≤ p.state.speed ∧ p.state.speed ≤ p.max_speed
    ∧ min_stamina ≤ p.state.stamina ∧ p.state.stamina ≤ max_stamina

theorem max_speed_handle_pedal (p : Physics) (side : String) (t : ℤ) :
    (p.handle_pedal side t).2.max_speed = p.max_speed := by
  unfold Physics.handle_pedal
  split_ifs <;> rfl

theorem max_speed_update (p : Physics) (dt : ℚ) (t : ℤ) :
    (p.update dt t).max_speed = p.max_speed := by
  unfold Physics.update
  split_ifs <;> rfl

theorem max_speed_applyOp (p : Physics) (op : PhysOp) :
    (p.applyOp op).max_speed = p.max_speed := by
  cases op with
  | reset => rfl
  | pedal side t => exact max_speed_handle_pedal p side t
  | tick dt t => exact max_speed_update p dt t

theorem max_speed_applyOps (p : Physics) (ops : List PhysOp) :
    (p.applyOps ops).max_speed = p.max_speed := by
  induction ops generalizing p with
  | nil => rfl
  | cons op rest ih =>
      show ((p.applyOp op).applyOps rest).max_speed = p.max_speed
      rw [ih, max_speed_applyOp]

theorem bounds_handle_pedal (p : Physics) (side : String) (t : ℤ)
    (h : SpeedStaminaBounds p) (hm : p.max_speed = 35) :
    SpeedStaminaBounds (p.handle_pedal side t).2 := by
  obtain ⟨h1, h2, h3, h4⟩ := h
  unfold Physics.handle_pedal
  by_cases hside : p.state.last_pedal_side = some side
  · simp only [if_pos hside]
    exact ⟨h1, h2, h3, h4⟩
  · simp only [if_neg hside]
    by_cases htime : p.state.last_pedal_time > 0
    · simp only [if_pos htime, SpeedStaminaBounds]
      refine ⟨le_min (le_max_left _ _) ?_, min_le_right _ _,
        le_min (le_max_left _ _) ?_, min_le_right _ _⟩
      · rw [hm]; norm_num [min_speed]
      · norm_num [min_stamina, max_stamina]
    · simp only [if_neg htime, SpeedStaminaBounds]
      refine ⟨?_, ?_, h3, h4⟩
      · norm_num [min_speed, min_moving_speed]
      · rw [hm]; norm_num [min_moving_speed]

theorem bounds_update (p : Physics) (dt : ℚ) (t : ℤ)
    (h : SpeedStaminaBounds p) : SpeedStaminaBounds (p.update dt t) := by
  obtain ⟨h1, h2, h3, h4⟩ := h
  unfold Physics.update
  split_ifs with hc1 hc2
  · exact ⟨h1, h2, le_refl _, by norm_num [min_stamina, max_stamina]⟩
  · exact ⟨h1, h2, h3, h4⟩
  · exact ⟨h1, h2, h3, h4⟩

theorem bounds_reset (p : Physics) (hm : p.max_speed = 35) :
    SpeedStaminaBounds p.reset := by
  refine ⟨?_, ?_, ?_, ?_⟩
  · norm_num [Physics.reset, min_speed]
  · show (({} : PhysicsState)).speed ≤ p.reset.max_speed
    norm_num [Physics.reset, hm]
  · norm_num [Physics.reset, min_stamina]
  · norm_num [Physics.reset, max_stamina]

theorem bounds_applyOp (p : Physics) (op : PhysOp) (h : SpeedStaminaBounds p)
    (hm : p.max_speed = 35) : SpeedStaminaBounds (p.applyOp op) := by
  cases op with
  | reset => exact bounds_reset p hm
  | pedal side t => exact bounds_handle_pedal p side t h hm
  | tick dt t => exact bounds_update p dt t h

theorem bounds_applyOps (p : Physics) (ops : List PhysOp)
    (h : SpeedStaminaBounds p) (hm : p.max_speed = 35) :
    SpeedStaminaBounds (p.applyOps ops) := by
  induction ops generalizing p with
  | nil => exact h
  | cons op rest ih =>
      show SpeedStaminaBounds ((p.applyOp op).applyOps rest)
      exact ih (p.applyOp op) (bounds_applyOp p op h hm)
        ((max_speed_applyOp p op).trans hm)

theorem bounds_init (a : ℚ) : SpeedStaminaBounds (Physics.init a) := by
  refine ⟨?_, ?_, ?_, ?_⟩ <;>
    norm_num [Physics.init, min_speed, min_stamina, max_stamina]

/-- Helper: with speed within bounds, feeding `get_curr_interval` through
the spec's speed-for-interval straight line overshoots the current speed by
less than one interval quantum (the `int(...)` truncation step). -/
theorem roundtrip_core (p : Physics) (hm : p.max_speed = 35)
    (h1 : 0 ≤ p.state.speed) (h2 : p.state.speed ≤ p.max_speed) :
    0 ≤ spec_speed_for_interval p.max_speed (p.get_curr_interval : ℚ)
        - p.state.speed
      ∧ spec_speed_for_interval p.max_speed (p.get_curr_interval : ℚ)
        - p.state.speed
        < p.max_speed / ((max_pedal_interval : ℚ) - (min_pedal_interval : ℚ)) := by
  have e1 : ((max_pedal_interval : ℚ) - (min_pedal_interval : ℚ)) = 2850 := by
    norm_num [min_pedal_interval, max_pedal_interval]
  have e2 : p.speed_at_0ms = 700 / 19 := by
    rw [Physics.speed_at_0ms, hm, e1]
    norm_num [min_pedal_interval]
  have hI0 : 0 ≤ (p.speed_at_0ms - p.state.speed)
      * ((max_pedal_interval : ℚ) - (min_pedal_interval : ℚ)) / p.max_speed := by
    rw [e1, e2, hm]
    have : p.state.speed ≤ 35 := hm ▸ h2
    nlinarith
  have hfl := Int.floor_le ((p.speed_at_0ms - p.state.speed)
      * ((max_pedal_interval : ℚ) - (min_pedal_interval : ℚ)) / p.max_speed)
  have hfu := Int.lt_floor_add_one ((p.speed_at_0ms - p.state.speed)
      * ((max_pedal_interval : ℚ) - (min_pedal_interval : ℚ)) / p.max_speed)
  have hcurr : p.get_curr_interval
      = ⌊(p.speed_at_0ms - p.state.speed)
          * ((max_pedal_interval : ℚ) - (min_pedal_interval : ℚ)) / p.max_speed⌋ := by
    rw [Physics.get_curr_interval, pyInt_of_nonneg hI0]
  rw [hcurr]
  rw [e1, e2, hm] at hfl hfu ⊢
  unfold spec_speed_for_interval spec_speed_at_zero_ms
  rw [e1]
  simp only [min_pedal_interval, Int.cast_ofNat]
  constructor
  · nlinarith
  · nlinarith

/-! ## Claim theorems -/

/-- C2: for every sequence of operations (reset, handle_pedal, update; the
predict accessors are pure functions of the state and mutate nothing)
applied to the freshly constructed physics engine, the resulting state
satisfies `min_speed <= speed <= max_speed` and `0 <= stamina <=
max_stamina`. -/
theorem C2_speed_stamina_always_clamped (a : ℚ) (ops : List PhysOp) :
    min_speed ≤ (Physics.applyOps (Physics.init a) ops).state.speed
      ∧ (Physics.applyOps (Physics.init a) ops).state.speed
          ≤ (Physics.applyOps (Physics.init a) ops).max_speed
      ∧ 0 ≤ (Physics.applyOps (Physics.init a) ops).state.stamina
      ∧ (Physics.applyOps (Physics.init a) ops).state.stamina ≤ max_stamina := by
  obtain ⟨h1, h2, h3, h4⟩ := bounds_applyOps (Physics.init a) ops (bounds_init a) rfl
  exact ⟨h1, h2, by simpa [min_stamina] using h3, h4⟩

/-- C6: for every reachable physics state, substituting the result of
`get_curr_interval()` into the speed-for-interval formula reproduces the
current speed up to the quantization of the integer interval: the round
trip overshoots the speed by at least 0 and by less than one interval step
`max_speed / (max_pedal_interval - min_pedal_interval)` (≈ 0.0123 mph). -/
theorem C6_curr_interval_speed_roundtrip (a : ℚ) (ops : List PhysOp) :
    0 ≤ spec_speed_for_interval (Physics.applyOps (Physics.init a) ops).max_speed
          ((Physics.applyOps (Physics.init a) ops).get_curr_interval : ℚ)
        - (Physics.applyOps (Physics.init a) ops).state.speed
      ∧ spec_speed_for_interval (Physics.applyOps (Physics.init a) ops).max_speed
          ((Physics.applyOps (Physics.init a) ops).get_curr_interval : ℚ)
        - (Physics.applyOps (Physics.init a) ops).state.speed
        < (Physics.applyOps (Physics.init a) ops).max_speed
            / ((max_pedal_interval : ℚ) - (min_pedal_interval : ℚ)) := by
  obtain ⟨h1, h2, _, _⟩ := bounds_applyOps (Physics.init a) ops (bounds_init a) rfl
  exact roundtrip_core _ (max_speed_applyOps _ ops) (by simpa [min_speed] using h1) h2

/-- C3: for every physics state whose `last_pedal_side` equals the incoming
side, `handle_pedal` returns false and leaves the object unchanged; and in
the concrete scenario, after an accepted Left pedal at t=0 a second Left
pedal at t=400 is rejected with the state unchanged. -/
theorem C3_same_side_pedal_rejected (p : Physics) (side : String) (t : ℤ)
    (h : p.state.last_pedal_side = some side) :
    p.handle_pedal side t = (false, p)
      ∧ ((Physics.init 35).handle_pedal "left" 0).1 = true
      ∧ ((Physics.init 35).handle_pedal "left" 0).2.handle_pedal "left" 400
          = (false, ((Physics.init 35).handle_pedal "left" 0).2) := by
  refine ⟨?_, ?_, ?_⟩
  · unfold Physics.handle_pedal
    rw [if_pos h]
  · simp [Physics.handle_pedal, Physics.init]
  · have hstate : ((Physics.init 35).handle_pedal "left" 0).2
        = ⟨35, ⟨1, 0, 100, some "left", 0, 0⟩⟩ := by
      simp [Physics.handle_pedal, Physics.init, min_moving_speed]
    rw [hstate]
    unfold Physics.handle_pedal
    simp

/-- Witness for C3 at a concrete state with `last_pedal_side = some "left"`. -/
theorem C3_witness :
    Physics.handle_pedal ⟨35, ⟨1, 0, 100, some "left", 0, 0⟩⟩ "left" 400
        = (false, ⟨35, ⟨1, 0, 100, some "left", 0, 0⟩⟩)
      ∧ ((Physics.init 35).handle_pedal "left" 0).1 = true
      ∧ ((Physics.init 35).handle_pedal "left" 0).2.handle_pedal "left" 400
          = (false, ((Physics.init 35).handle_pedal "left" 0).2) :=
  C3_same_side_pedal_rejected ⟨35, ⟨1, 0, 100, some "left", 0, 0⟩⟩ "left" 400 rfl

/-- C4: `predict_stamina_change` agrees everywhere with the spec's
description (0 when never pedaled; -100 below `min_pedal_interval`;
otherwise the two branch formulas on `diff = interval - get_curr_interval()`
with slopes ±0.075, truncated to integer). -/
theorem C4_predict_stamina_change_matches_spec (p : Physics) (now : ℤ) :
    p.predict_stamina_change now = spec_stamina_change p now := by
  unfold Physics.predict_stamina_change spec_stamina_change
  split_ifs <;> norm_num

/-- C1 counterexample: constructed with `max_speed=25` the engine still has
`max_speed = 35` (the constructor re-assigns it), and after pedal Left@0 the
pedal Right@900 is treated as a first-ever pedal (`last_pedal_time` stayed
0), so speed becomes `min_moving_speed = 1` — not the claimed
`speed_for_interval(900)` — and stamina is unchanged. -/
theorem C1_counterexample :
    (Physics.init 25).max_speed = 35
      ∧ ((Physics.init 25).handle_pedal "left" 0).1 = true
      ∧ (((Physics.init 25).handle_pedal "left" 0).2.handle_pedal "right" 900).1 = true
      ∧ (((Physics.init 25).handle_pedal "left" 0).2.handle_pedal "right" 900).2.state.speed = 1
      ∧ (((Physics.init 25).handle_pedal "left" 0).2.handle_pedal "right" 900).2.state.stamina
          = ((Physics.init 25).handle_pedal "left" 0).2.state.stamina
      ∧ spec_speed_for_interval 25 900 = 350 / 19
      ∧ (350 / 19 : ℚ) ≠ 1 := by
  have h1 : ((Physics.init 25).handle_pedal "left" 0).2
      = ⟨35, ⟨1, 0, 100, some "left", 0, 0⟩⟩ := by
    simp [Physics.handle_pedal, Physics.init, min_moving_speed]
  have h2 : Physics.handle_pedal ⟨35, ⟨1, 0, 100, some "left", 0, 0⟩⟩ "right" 900
      = (true, ⟨35, ⟨1, 0, 100, some "right", 900, 0⟩⟩) := by
    simp [Physics.handle_pedal, min_moving_speed]
  refine ⟨rfl, ?_, ?_, ?_, ?_, ?_, by norm_num⟩
  · simp [Physics.handle_pedal, Physics.init]
  · rw [h1, h2]
  · rw [h1, h2]
  · rw [h1, h2]
  · norm_num [spec_speed_for_interval, spec_speed_at_zero_ms,
      min_pedal_interval, max_pedal_interval]

/-- Helper for C1: the expected interval at speed 1 (after a first pedal). -/
theorem c1_curr_interval :
    Physics.get_curr_interval ⟨35, ⟨1, 0, 100, some "left", 100, 0⟩⟩ = 2918 := by
  rw [Physics.get_curr_interval, Physics.speed_at_0ms]
  simp only [min_pedal_interval, max_pedal_interval]
  apply pyInt_eq_of_nonneg <;> norm_num

/-- C1 as amended: the engine ignores the `max_speed=25` argument and uses
35, and a t=0 first pedal is not recorded, so the scenario starts at t=100:
pedal Left@100 then Right@1000 (interval 900) changes speed by
`speed_for_interval(900) - current_speed` and stamina by the early-pedal
branch formula on `diff = 900 - get_curr_interval()` (clamped to the
stamina range), all with `max_speed = 35`. -/
theorem C1_amended_interval_formulas :
    ((Physics.init 25).handle_pedal "left" 100).2
        = ⟨35, ⟨1, 0, 100, some "left", 100, 0⟩⟩
      ∧ (Physics.handle_pedal ⟨35, ⟨1, 0, 100, some "left", 100, 0⟩⟩ "right" 1000).1
          = true
      ∧ (Physics.handle_pedal ⟨35, ⟨1, 0, 100, some "left", 100, 0⟩⟩ "right" 1000).2.state.speed
          = spec_speed_for_interval 35 900
      ∧ spec_speed_for_interval 35 900 = 490 / 19
      ∧ 900 - Physics.get_curr_interval ⟨35, ⟨1, 0, 100, some "left", 100, 0⟩⟩ ≤ 0
      ∧ (Physics.handle_pedal ⟨35, ⟨1, 0, 100, some "left", 100, 0⟩⟩ "right" 1000).2.state.stamina
          = min (max min_stamina (100
              + (pyInt ((3 : ℚ) / 40
                  * (((900 - Physics.get_curr_interval
                        ⟨35, ⟨1, 0, 100, some "left", 100, 0⟩⟩ : ℤ) : ℚ) + 200)) : ℚ)))
              max_stamina
      ∧ (Physics.handle_pedal ⟨35, ⟨1, 0, 100, some "left", 100, 0⟩⟩ "right" 1000).2.state.stamina
          = 0 := by
  have hsp : spec_speed_for_interval 35 900 = 490 / 19 := by
    norm_num [spec_speed_for_interval, spec_speed_at_zero_ms,
      min_pedal_interval, max_pedal_interval]
  have hpsc : Physics.predict_speed_change ⟨35, ⟨1, 0, 100, some "left", 100, 0⟩⟩ 1000
      = 490 / 19 - 1 := by
    rw [Physics.predict_speed_change]
    simp only [min_pedal_interval, max_pedal_interval, Physics.speed_at_0ms]
    norm_num
  have hpyi : pyInt ((3 : ℚ) / 40 * ((((900 : ℤ) - 2918 : ℤ) : ℚ) + 200)) = -136 := by
    apply pyInt_eq_of_nonpos <;> norm_num
  have hstc : Physics.predict_stamina_change ⟨35, ⟨1, 0, 100, some "left", 100, 0⟩⟩ 1000
      = -136 := by
    rw [Physics.predict_stamina_change]
    simp only [c1_curr_interval, min_pedal_interval]
    norm_num
    have h136 : pyInt (-(2727 / 20) : ℚ) = -136 := by
      apply pyInt_eq_of_nonpos <;> norm_num
    rw [h136]
    norm_num
  have hr : Physics.handle_pedal ⟨35, ⟨1, 0, 100, some "left", 100, 0⟩⟩ "right" 1000
      = (true, ⟨35, ⟨490 / 19, 0, 0, some "right", 1000, 0⟩⟩) := by
    rw [Physics.handle_pedal]
    simp only [hpsc, hstc]
    norm_num [min_speed, min_stamina, max_stamina, min_def, max_def]
    decide
  refine ⟨?_, ?_, ?_, hsp, ?_, ?_, ?_⟩
  · simp [Physics.handle_pedal, Physics.init, min_moving_speed]
  · rw [hr]
  · rw [hr, hsp]
  · rw [c1_curr_interval]; norm_num
  · rw [hr, c1_curr_interval]
    have : pyInt ((3 : ℚ) / 40 * ((((900 : ℤ) - 2918 : ℤ) : ℚ) + 200)) = -136 := hpyi
    norm_num at this ⊢
    rw [this]
    norm_num [min_stamina, max_stamina, min_def, max_def]
  · rw [hr]

/-- C10: a first accepted pedal at timestamp 0 leaves `last_pedal_time = 0`,
so the engine keeps behaving as if never pedaled: `get_time_since_last_pedal`
returns 0 at any time, the next opposite-side pedal at any time is again
treated as a first pedal (accepted, speed set to `min_moving_speed`, stamina
unchanged), `update` never applies the stall penalty (stamina unchanged at
any time), and `_check_game_over_conditions` never ends the game on this
state. -/
theorem C10_first_pedal_at_zero_behaves_as_never_pedaled (a : ℚ)
    (s s' : String) (hss : s' ≠ s) (t t2 : ℤ) (dt : ℚ) (svc : GameService)
    (now : ℤ) (hphys : svc.physics = ((Physics.init a).handle_pedal s 0).2)
    (hgo : svc.game_over = false) (hlc : svc.level_complete = false)
    (hal : svc.all_levels_complete = false) :
    ((Physics.init a).handle_pedal s 0).1 = true
      ∧ ((Physics.init a).handle_pedal s 0).2.state.last_pedal_time = 0
      ∧ ((Physics.init a).handle_pedal s 0).2.get_time_since_last_pedal t = 0
      ∧ (((Physics.init a).handle_pedal s 0).2.handle_pedal s' t2).1 = true
      ∧ (((Physics.init a).handle_pedal s 0).2.handle_pedal s' t2).2.state.speed
          = min_moving_speed
      ∧ (((Physics.init a).handle_pedal s 0).2.handle_pedal s' t2).2.state.stamina
          = ((Physics.init a).handle_pedal s 0).2.state.stamina
      ∧ (((Physics.init a).handle_pedal s 0).2.update dt t).state.stamina
          = ((Physics.init a).handle_pedal s 0).2.state.stamina
      ∧ svc.check_game_over_conditions now = svc := by
  have hfirst : (Physics.init a).handle_pedal s 0
      = (true, ⟨35, ⟨min_moving_speed, 0, 100, some s, 0, 0⟩⟩) := by
    rw [Physics.handle_pedal]
    simp [Physics.init]
  have hns : ¬((some s : Option String) = some s') := by
    intro h
    exact hss (Option.some.inj h).symm
  have hsecond : Physics.handle_pedal ⟨35, ⟨min_moving_speed, 0, 100, some s, 0, 0⟩⟩ s' t2
      = (true, ⟨35, ⟨min_moving_speed, 0, 100, some s', t2, 0⟩⟩) := by
    rw [Physics.handle_pedal]
    simp [hns]
  have hupd : (Physics.update ⟨35, ⟨min_moving_speed, 0, 100, some s, 0, 0⟩⟩ dt t).state.stamina
      = 100 := by
    rw [Physics.update]
    split_ifs with hc1 hc2
    · simp at hc1
    · rfl
    · rfl
  have hcheck : svc.check_game_over_conditions now = svc := by
    rw [GameService.check_game_over_conditions, hgo, hlc, hal, hphys, hfirst]
    simp [Physics.get_stamina]
  rw [hfirst, hsecond]
  exact ⟨rfl, rfl, rfl, rfl, rfl, rfl, hupd, hcheck⟩

/-- Witness for C10 with sides left then right at concrete times. -/
theorem C10_witness :
    ((Physics.init 25).handle_pedal "left" 0).1 = true
      ∧ ((Physics.init 25).handle_pedal "left" 0).2.state.last_pedal_time = 0
      ∧ ((Physics.init 25).handle_pedal "left" 0).2.get_time_since_last_pedal 7000 = 0
      ∧ (((Physics.init 25).handle_pedal "left" 0).2.handle_pedal "right" 900).1 = true
      ∧ (((Physics.init 25).handle_pedal "left" 0).2.handle_pedal "right" 900).2.state.speed
          = min_moving_speed
      ∧ (((Physics.init 25).handle_pedal "left" 0).2.handle_pedal "right" 900).2.state.stamina
          = ((Physics.init 25).handle_pedal "left" 0).2.state.stamina
      ∧ (((Physics.init 25).handle_pedal "left" 0).2.update 16 7000).state.stamina
          = ((Physics.init 25).handle_pedal "left" 0).2.state.stamina
      ∧ GameService.check_game_over_conditions
          { physics := ((Physics.init 25).handle_pedal "left" 0).2, stats := {} } 7000
          = { physics := ((Physics.init 25).handle_pedal "left" 0).2, stats := {} } :=
  C10_first_pedal_at_zero_behaves_as_never_pedaled 25 "left" "right" (by decide)
    7000 900 16 { physics := ((Physics.init 25).handle_pedal "left" 0).2, stats := {} }
    7000 rfl rfl rfl rfl

/-- C7 counterexample: with 1 successful pedal out of 2 attempts the source
property returns 50 — a percentage — while the claim's
`successful_pedals / total_pedals` is 1/2. -/
theorem C7_counterexample :
    GameStats.success_ratio ⟨0, 2, 1, 0, [], [], [], [], []⟩ = 50
      ∧ spec_success_ratio ⟨0, 2, 1, 0, [], [], [], [], []⟩ = 1 / 2
      ∧ (50 : ℚ) ≠ 1 / 2 := by
  refine ⟨?_, ?_, by norm_num⟩ <;>
    norm_num [ GameStats.success_ratio, spec_success_ratio]

/-- C7 as amended: `success_ratio` is the percentage
`(successful_pedals / total_pedals) * 100` when there are attempts, and 0
when `total_pedals = 0` (no division by zero). -/
theorem C7_amended_success_ratio_is_percentage (s : GameStats) :
    (s.total_pedals = 0 → GameStats.success_ratio s = 0)
      ∧ (s.total_pedals ≠ 0 →
          GameStats.success_ratio s
            = ((s.successful_pedals : ℚ) / (s.total_pedals : ℚ)) * 100) := by
  constructor <;> intro h <;> simp [ GameStats.success_ratio, h]

/-- Witness for C7 at a concrete statistics record with 2 attempts. -/
theorem C7_witness :
    GameStats.success_ratio ⟨0, 2, 1, 0, [], [], [], [], []⟩
      = ((1 : ℚ) / 2) * 100 :=
  (C7_amended_success_ratio_is_percentage ⟨0, 2, 1, 0, [], [], [], [], []⟩).2
    (by norm_num)

/-- C5 counterexample: the run's one accepted pedal happened at clock time
0, so `last_pedal_time` is still 0; 5000ms later (past
`max_pedal_interval`) the tick neither zeroes stamina nor freezes distance
nor ends the game — the stall rule is keyed on `last_pedal_time > 0`, not
on "at least one accepted pedal". -/
theorem C5_counterexample :
    ((GameService.init 1 0).handle_pedal_input "left" 0).1 = true
      ∧ ((GameService.init 1 0).handle_pedal_input "left" 0).2.physics.state.last_pedal_time
          = 0
      ∧ (5000 : ℤ) - 0 > max_pedal_interval
      ∧ (((GameService.init 1 0).handle_pedal_input "left" 0).2.update 16 5000).game_over
          = false
      ∧ (((GameService.init 1 0).handle_pedal_input "left" 0).2.update 16 5000).game_over_reason
          = ""
      ∧ (((GameService.init 1 0).handle_pedal_input "left" 0).2.update 16 5000).physics.state.stamina
          = 100
      ∧ (((GameService.init 1 0).handle_pedal_input "left" 0).2.update 16 5000).physics.state.distance_traveled
          = 4 / 25 := by
  have h0 : GameService.init 1 0
      = ⟨false, false, 1, false, false, 0, "", ⟨35, ⟨0, 0, 100, none, 0, 0⟩⟩,
          ⟨0, 0, 0, 0, [], [], [], [(1, false)], []⟩⟩ := by
    simp [GameService.init, Physics.init, GameStats.prepare_level, ainsert]
  have h1 : GameService.handle_pedal_input
      ⟨false, false, 1, false, false, 0, "", ⟨35, ⟨0, 0, 100, none, 0, 0⟩⟩,
        ⟨0, 0, 0, 0, [], [], [], [(1, false)], []⟩⟩ "left" 0
      = (true, ⟨false, false, 1, false, false, 0, "",
          ⟨35, ⟨1, 0, 100, some "left", 0, 0⟩⟩,
          ⟨1, 1, 1, 0, [(1, 0)], [], [], [(1, true)], []⟩⟩) := by
    simp [GameService.handle_pedal_input, GameStats.start_level_timer, alookup,
      ainsert, Physics.handle_pedal, min_moving_speed]
  have h2 : GameService.update
      ⟨false, false, 1, false, false, 0, "",
        ⟨35, ⟨1, 0, 100, some "left", 0, 0⟩⟩,
        ⟨1, 1, 1, 0, [(1, 0)], [], [], [(1, true)], []⟩⟩ 16 5000
      = ⟨false, false, 1, false, false, 0, "",
          ⟨35, ⟨1, 4 / 25, 100, some "left", 0, 0⟩⟩,
          ⟨1, 1, 1, 0, [(1, 0)], [], [], [(1, true)], []⟩⟩ := by
    have hu : Physics.update ⟨35, ⟨1, 0, 100, some "left", 0, 0⟩⟩ 16 5000
        = ⟨35, ⟨1, 4 / 25, 100, some "left", 0, 0⟩⟩ := by
      rw [Physics.update]
      norm_num
    have hc : GameService.check_game_over_conditions
        ⟨false, false, 1, false, false, 0, "",
          ⟨35, ⟨1, 4 / 25, 100, some "left", 0, 0⟩⟩,
          ⟨1, 1, 1, 0, [(1, 0)], [], [], [(1, true)], []⟩⟩ 5000
        = ⟨false, false, 1, false, false, 0, "",
            ⟨35, ⟨1, 4 / 25, 100, some "left", 0, 0⟩⟩,
            ⟨1, 1, 1, 0, [(1, 0)], [], [], [(1, true)], []⟩⟩ := by
      rw [GameService.check_game_over_conditions]
      norm_num [Physics.get_stamina]
    have hl : GameService.check_level_completion
        ⟨false, false, 1, false, false, 0, "",
          ⟨35, ⟨1, 4 / 25, 100, some "left", 0, 0⟩⟩,
          ⟨1, 1, 1, 0, [(1, 0)], [], [], [(1, true)], []⟩⟩ 5000
        = ⟨false, false, 1, false, false, 0, "",
            ⟨35, ⟨1, 4 / 25, 100, some "left", 0, 0⟩⟩,
            ⟨1, 1, 1, 0, [(1, 0)], [], [], [(1, true)], []⟩⟩ := by
      rw [GameService.check_level_completion]
      norm_num [Physics.get_distance_meters, get_level_target_distance,
        LEVEL_DISTANCES, alookup]
    rw [GameService.update]
    norm_num [hu, hc, hl]
  rw [h0, h1, h2]
  refine ⟨rfl, rfl, by norm_num [max_pedal_interval], rfl, rfl, rfl, rfl⟩

theorem update_stall_phys (p : Physics) (dt : ℚ) (t : ℤ)
    (h1 : p.state.last_pedal_time > 0)
    (h2 : t - p.state.last_pedal_time > max_pedal_interval) :
    p.update dt t = { p with state := { p.state with stamina := min_stamina } } := by
  rw [Physics.update, if_pos ⟨h1, h2⟩]

theorem end_game_fields (svc : GameService) (now : ℤ) :
    (svc.end_game now).game_over = true
      ∧ (svc.end_game now).game_over_reason = svc.game_over_reason
      ∧ (svc.end_game now).physics = svc.physics := by
  rw [GameService.end_game]
  split_ifs <;> exact ⟨rfl, rfl, rfl⟩

/-- C5 as amended: for every run state whose last accepted pedal was
recorded at a positive timestamp (`last_pedal_time > 0`), when the time
since that pedal exceeds `max_pedal_interval` the next tick sets stamina to
`min_stamina` (0), leaves `distance_traveled` unchanged, and ends the game
with reason "You stopped pedaling for too long!"; no assumption on stamina
is needed, so this branch takes priority over the stamina-depletion
condition. -/
theorem C5_amended_stall_tick (svc : GameService) (dt : ℚ) (now : ℤ)
    (hlp : svc.physics.state.last_pedal_time > 0)
    (hstall : now - svc.physics.state.last_pedal_time > max_pedal_interval)
    (hgo : svc.game_over = false) (hp : svc.paused = false)
    (hlc : svc.level_complete = false)
    (hal : svc.all_levels_complete = false) :
    (svc.update dt now).physics.state.stamina = min_stamina
      ∧ (svc.update dt now).physics.state.distance_traveled
          = svc.physics.state.distance_traveled
      ∧ (svc.update dt now).game_over = true
      ∧ (svc.update dt now).game_over_reason
          = "You stopped pedaling for too long!" := by
  have hupd := update_stall_phys svc.physics dt now hlp hstall
  have hstep : svc.update dt now
      = GameService.check_game_over_conditions
          { svc with physics := svc.physics.update dt now } now := by
    rw [GameService.update]
    rw [if_neg (by simp [hgo, hp])]
    rw [if_pos (by simp [hlc])]
    have hg2 : (GameService.check_game_over_conditions
        { svc with physics := svc.physics.update dt now } now).game_over = true := by
      rw [GameService.check_game_over_conditions]
      rw [if_neg (by simp [hgo, hlc, hal])]
      rw [if_pos (by rw [hupd]; exact ⟨hlp, hstall⟩)]
      exact (end_game_fields _ now).1
    rw [if_pos hg2]
  have hcgo : GameService.check_game_over_conditions
      { svc with physics := svc.physics.update dt now } now
      = GameService.end_game
          { svc with
              physics := svc.physics.update dt now,
              game_over_reason := "You stopped pedaling for too long!" } now := by
    rw [GameService.check_game_over_conditions]
    rw [if_neg (by simp [hgo, hlc, hal])]
    rw [if_pos (by rw [hupd]; exact ⟨hlp, hstall⟩)]
  obtain ⟨hg, hr, hph⟩ := end_game_fields
    { svc with
        physics := svc.physics.update dt now,
        game_over_reason := "You stopped pedaling for too long!" } now
  rw [hstep, hcgo]
  refine ⟨?_, ?_, hg, hr⟩
  · rw [hph]
    show (svc.physics.update dt now).state.stamina = min_stamina
    rw [hupd]
  · rw [hph]
    show (svc.physics.update dt now).state.distance_traveled
      = svc.physics.state.distance_traveled
    rw [hupd]

/-- Witness for C5 (amended) at a concrete stalled run state. -/
theorem C5_witness :
    (GameService.update
        ⟨false, false, 1, false, false, 0, "",
          ⟨35, ⟨1, 2, 50, some "left", 100, 0⟩⟩,
          ⟨1, 1, 1, 0, [(1, 100)], [], [], [(1, true)], []⟩⟩ 16 5000).physics.state.stamina
        = min_stamina
      ∧ (GameService.update
          ⟨false, false, 1, false, false, 0, "",
            ⟨35, ⟨1, 2, 50, some "left", 100, 0⟩⟩,
            ⟨1, 1, 1, 0, [(1, 100)], [], [], [(1, true)], []⟩⟩ 16 5000).physics.state.distance_traveled
          = (⟨35, ⟨1, 2, 50, some "left", 100, 0⟩⟩ : Physics).state.distance_traveled
      ∧ (GameService.update
          ⟨false, false, 1, false, false, 0, "",
            ⟨35, ⟨1, 2, 50, some "left", 100, 0⟩⟩,
            ⟨1, 1, 1, 0, [(1, 100)], [], [], [(1, true)], []⟩⟩ 16 5000).game_over = true
      ∧ (GameService.update
          ⟨false, false, 1, false, false, 0, "",
            ⟨35, ⟨1, 2, 50, some "left", 100, 0⟩⟩,
            ⟨1, 1, 1, 0, [(1, 100)], [], [], [(1, true)], []⟩⟩ 16 5000).game_over_reason
          = "You stopped pedaling for too long!" :=
  C5_amended_stall_tick
    ⟨false, false, 1, false, false, 0, "",
      ⟨35, ⟨1, 2, 50, some "left", 100, 0⟩⟩,
      ⟨1, 1, 1, 0, [(1, 100)], [], [], [(1, true)], []⟩⟩ 16 5000
    (by norm_num) (by norm_num [max_pedal_interval]) rfl rfl rfl rfl

/-- C8 counterexample: on a run whose level-1 timer started at 1000 and
which is not level-complete, `_end_game` at 2000 records end time 2000 and
reports total time 1s, but a second `_end_game` at 3000 overwrites the end
time to 3000 and reports total time 2s — not idempotent. -/
theorem C8_counterexample :
    GameService.end_game
        ⟨false, false, 1, false, false, 0, "", ⟨35, ⟨0, 0, 100, none, 0, 0⟩⟩,
          ⟨0, 0, 0, 0, [(1, 1000)], [], [], [(1, true)], []⟩⟩ 2000
      = ⟨true, false, 1, false, false, 0, "", ⟨35, ⟨0, 0, 100, none, 0, 0⟩⟩,
          ⟨0, 0, 0, 0, [(1, 1000)], [], [(1, 2000)], [(1, true)], []⟩⟩
      ∧ GameService.end_game
          ⟨true, false, 1, false, false, 0, "", ⟨35, ⟨0, 0, 100, none, 0, 0⟩⟩,
            ⟨0, 0, 0, 0, [(1, 1000)], [], [(1, 2000)], [(1, true)], []⟩⟩ 3000
        = ⟨true, false, 1, false, false, 0, "", ⟨35, ⟨0, 0, 100, none, 0, 0⟩⟩,
            ⟨0, 0, 0, 0, [(1, 1000)], [], [(1, 3000)], [(1, true)], []⟩⟩
      ∧ GameService.get_total_time
          ⟨true, false, 1, false, false, 0, "", ⟨35, ⟨0, 0, 100, none, 0, 0⟩⟩,
            ⟨0, 0, 0, 0, [(1, 1000)], [], [(1, 2000)], [(1, true)], []⟩⟩ 2000 = 1
      ∧ GameService.get_total_time
          ⟨true, false, 1, false, false, 0, "", ⟨35, ⟨0, 0, 100, none, 0, 0⟩⟩,
            ⟨0, 0, 0, 0, [(1, 1000)], [], [(1, 3000)], [(1, true)], []⟩⟩ 3000 = 2
      ∧ ((2 : ℚ) ≠ 1)
      ∧ alookup
          (⟨0, 0, 0, 0, [(1, 1000)], [], [(1, 2000)], [(1, true)], []⟩ : GameStats).level_end_times
          1 = some 2000
      ∧ alookup
          (⟨0, 0, 0, 0, [(1, 1000)], [], [(1, 3000)], [(1, true)], []⟩ : GameStats).level_end_times
          1 = some 3000 := by
  refine ⟨?_, ?_, ?_, ?_, by norm_num, by simp [alookup], by simp [alookup]⟩
  · simp [GameService.end_game, GameStats.end_level, alookup, ainsert]
  · simp [GameService.end_game, GameStats.end_level, alookup, ainsert]
  · norm_num [GameService.get_total_time, GameStats.get_current_level_time,
      GameStats.total_completion_time, alookup]
  · norm_num [GameService.get_total_time, GameStats.get_current_level_time,
      GameStats.total_completion_time, alookup]

/-- C8 as amended: when the current level's timer is running, a second
`_end_game` call leaves the reported total distance and the per-level
completion times unchanged (no double-counting), but it re-records the
current level's end time at the new timestamp and reports the total time
recomputed from it; calling `_end_game` twice with the same timestamp is
idempotent on the whole state. -/
theorem C8_amended_end_game_second_call (svc : GameService) (t1 t2 s : ℤ)
    (hlc : svc.level_complete = false)
    (hstart : alookup svc.stats.level_start_times svc.current_level = some s)
    (hstarted : (alookup svc.stats.level_started svc.current_level).getD false
        = true) :
    (svc.end_game t1).end_game t1 = svc.end_game t1
      ∧ ((svc.end_game t1).end_game t2).stats.level_completion_times
          = svc.stats.level_completion_times
      ∧ GameService.get_total_distance_traveled ((svc.end_game t1).end_game t2)
          = GameService.get_total_distance_traveled (svc.end_game t1)
      ∧ alookup (svc.end_game t1).stats.level_end_times svc.current_level
          = some t1
      ∧ alookup ((svc.end_game t1).end_game t2).stats.level_end_times
          svc.current_level = some t2
      ∧ GameService.get_total_time (svc.end_game t1) t1
          = svc.stats.total_completion_time + ((t1 : ℚ) - (s : ℚ)) / 1000
      ∧ GameService.get_total_time ((svc.end_game t1).end_game t2) t2
          = svc.stats.total_completion_time + ((t2 : ℚ) - (s : ℚ)) / 1000 := by
  have hs : (alookup svc.stats.level_start_times svc.current_level).isSome
      = true := by
    rw [hstart]; rfl
  have he1 : svc.end_game t1
      = { svc with
            game_over := true,
            stats := { svc.stats with
                level_end_times :=
                  ainsert svc.stats.level_end_times svc.current_level t1 } } := by
    simp [GameService.end_game, GameStats.end_level, hlc, hs, hstarted]
  have he2 : ∀ t' : ℤ, (svc.end_game t1).end_game t'
      = { svc with
            game_over := true,
            stats := { svc.stats with
                level_end_times :=
                  ainsert svc.stats.level_end_times svc.current_level t' } } := by
    intro t'
    rw [he1]
    simp [GameService.end_game, GameStats.end_level, hlc, hs, hstarted,
      ainsert_ainsert]
  refine ⟨?_, ?_, ?_, ?_, ?_, ?_, ?_⟩
  · rw [he2 t1, he1]
  · rw [he2 t2]
  · rw [he2 t2, he1]
    rfl
  · rw [he1]
    exact alookup_ainsert _ _ _
  · rw [he2 t2]
    exact alookup_ainsert _ _ _
  · rw [he1]
    simp [GameService.get_total_time, GameStats.get_current_level_time,
      GameStats.total_completion_time, hlc, hstart, hstarted, alookup_ainsert]
  · rw [he2 t2]
    simp [GameService.get_total_time, GameStats.get_current_level_time,
      GameStats.total_completion_time, hlc, hstart, hstarted, alookup_ainsert]

/-- Witness for C8 (amended) at the concrete run of the counterexample. -/
theorem C8_witness :
    (GameService.end_game
          ⟨false, false, 1, false, false, 0, "", ⟨35, ⟨0, 0, 100, none, 0, 0⟩⟩,
            ⟨0, 0, 0, 0, [(1, 1000)], [], [], [(1, true)], []⟩⟩ 2000).end_game 2000
        = GameService.end_game
            ⟨false, false, 1, false, false, 0, "", ⟨35, ⟨0, 0, 100, none, 0, 0⟩⟩,
              ⟨0, 0, 0, 0, [(1, 1000)], [], [], [(1, true)], []⟩⟩ 2000
      ∧ ((GameService.end_game
            ⟨false, false, 1, false, false, 0, "", ⟨35, ⟨0, 0, 100, none, 0, 0⟩⟩,
              ⟨0, 0, 0, 0, [(1, 1000)], [], [], [(1, true)], []⟩⟩ 2000).end_game
            3000).stats.level_completion_times
          = (⟨0, 0, 0, 0, [(1, 1000)], [], [], [(1, true)], []⟩ : GameStats).level_completion_times
      ∧ GameService.get_total_distance_traveled
          ((GameService.end_game
              ⟨false, false, 1, false, false, 0, "", ⟨35, ⟨0, 0, 100, none, 0, 0⟩⟩,
                ⟨0, 0, 0, 0, [(1, 1000)], [], [], [(1, true)], []⟩⟩ 2000).end_game 3000)
          = GameService.get_total_distance_traveled
            (GameService.end_game
              ⟨false, false, 1, false, false, 0, "", ⟨35, ⟨0, 0, 100, none, 0, 0⟩⟩,
                ⟨0, 0, 0, 0, [(1, 1000)], [], [], [(1, true)], []⟩⟩ 2000)
      ∧ alookup
          (GameService.end_game
            ⟨false, false, 1, false, false, 0, "", ⟨35, ⟨0, 0, 100, none, 0, 0⟩⟩,
              ⟨0, 0, 0, 0, [(1, 1000)], [], [], [(1, true)], []⟩⟩ 2000).stats.level_end_times
          1 = some 2000
      ∧ alookup
          ((GameService.end_game
              ⟨false, false, 1, false, false, 0, "", ⟨35, ⟨0, 0, 100, none, 0, 0⟩⟩,
                ⟨0, 0, 0, 0, [(1, 1000)], [], [], [(1, true)], []⟩⟩ 2000).end_game
              3000).stats.level_end_times 1 = some 3000
      ∧ GameService.get_total_time
          (GameService.end_game
            ⟨false, false, 1, false, false, 0, "", ⟨35, ⟨0, 0, 100, none, 0, 0⟩⟩,
              ⟨0, 0, 0, 0, [(1, 1000)], [], [], [(1, true)], []⟩⟩ 2000) 2000
          = (⟨0, 0, 0, 0, [(1, 1000)], [], [], [(1, true)], []⟩ : GameStats).total_completion_time
            + ((2000 : ℚ) - ((1000 : ℤ) : ℚ)) / 1000
      ∧ GameService.get_total_time
          ((GameService.end_game
              ⟨false, false, 1, false, false, 0, "", ⟨35, ⟨0, 0, 100, none, 0, 0⟩⟩,
                ⟨0, 0, 0, 0, [(1, 1000)], [], [], [(1, true)], []⟩⟩ 2000).end_game
              3000) 3000
          = (⟨0, 0, 0, 0, [(1, 1000)], [], [], [(1, true)], []⟩ : GameStats).total_completion_time
            + ((3000 : ℚ) - ((1000 : ℤ) : ℚ)) / 1000 :=
  C8_amended_end_game_second_call
    ⟨false, false, 1, false, false, 0, "", ⟨35, ⟨0, 0, 100, none, 0, 0⟩⟩,
      ⟨0, 0, 0, 0, [(1, 1000)], [], [], [(1, true)], []⟩⟩ 2000 3000 1000
    rfl (by simp [alookup]) (by simp [alookup])

/-- C9 counterexample: advancing from a completed non-final level calls
`prepare_level` on the next level, which writes
`level_started[next] = False` into GameStats — the stats object is not
left untouched (its `level_started` dict gains an entry). -/
theorem C9_counterexample :
    (GameService.handle_enter_key
        ⟨false, false, 1, true, false, 0, "", ⟨35, ⟨5, 100, 80, some "left", 500, 0⟩⟩,
          ⟨5, 10, 8, 0, [(1, 0)], [(1, 12)], [(1, 900)], [(1, true)], [1]⟩⟩).stats
      ≠ (⟨5, 10, 8, 0, [(1, 0)], [(1, 12)], [(1, 900)], [(1, true)], [1]⟩ : GameStats)
      ∧ (GameService.handle_enter_key
          ⟨false, false, 1, true, false, 0, "", ⟨35, ⟨5, 100, 80, some "left", 500, 0⟩⟩,
            ⟨5, 10, 8, 0, [(1, 0)], [(1, 12)], [(1, 900)], [(1, true)], [1]⟩⟩).stats.level_started
        = [(1, true), (2, false)]
      ∧ (GameService.handle_enter_key
          ⟨false, false, 1, true, false, 0, "", ⟨35, ⟨5, 100, 80, some "left", 500, 0⟩⟩,
            ⟨5, 10, 8, 0, [(1, 0)], [(1, 12)], [(1, 900)], [(1, true)], [1]⟩⟩).current_level
        = 2
      ∧ (GameService.handle_enter_key
          ⟨false, false, 1, true, false, 0, "", ⟨35, ⟨5, 100, 80, some "left", 500, 0⟩⟩,
            ⟨5, 10, 8, 0, [(1, 0)], [(1, 12)], [(1, 900)], [(1, true)], [1]⟩⟩).physics.state
        = {} := by
  have h : GameService.handle_enter_key
      ⟨false, false, 1, true, false, 0, "", ⟨35, ⟨5, 100, 80, some "left", 500, 0⟩⟩,
        ⟨5, 10, 8, 0, [(1, 0)], [(1, 12)], [(1, 900)], [(1, true)], [1]⟩⟩
      = ⟨false, false, 2, false, false, 0, "", ⟨35, ⟨0, 0, 100, none, 0, 0⟩⟩,
          ⟨5, 10, 8, 0, [(1, 0)], [(1, 12)], [(1, 900)], [(1, true), (2, false)], [1]⟩⟩ := by
    simp [GameService.handle_enter_key, GameService.set_level, Physics.reset,
      GameStats.prepare_level, ainsert]
  rw [h]
  refine ⟨?_, rfl, rfl, rfl⟩
  intro hcontra
  have := congrArg GameStats.level_started hcontra
  simp at this

/-- C9 as amended: with `level_complete` true and `all_levels_complete`
false, `handle_enter_key` on the final level (not below 4) only sets
`all_levels_complete` and a second call changes nothing; on a non-final
level it increments the level, resets the physics state, clears
`level_complete`, and leaves every GameStats field unchanged except
`level_started`, where `prepare_level` marks the next level as not
started. -/
theorem C9_amended_advance_level (svc : GameService)
    (hlc : svc.level_complete = true)
    (hal : svc.all_levels_complete = false) :
    (¬svc.current_level < 4 →
        svc.handle_enter_key = { svc with all_levels_complete := true }
          ∧ svc.handle_enter_key.handle_enter_key = svc.handle_enter_key)
      ∧ (svc.current_level < 4 →
          svc.handle_enter_key.current_level = svc.current_level + 1
            ∧ svc.handle_enter_key.physics.state = {}
            ∧ svc.handle_enter_key.level_complete = false
            ∧ svc.handle_enter_key.stats
                = GameStats.prepare_level svc.stats (svc.current_level + 1)
            ∧ svc.handle_enter_key.stats.total_pedals = svc.stats.total_pedals
            ∧ svc.handle_enter_key.stats.successful_pedals
                = svc.stats.successful_pedals
            ∧ svc.handle_enter_key.stats.max_speed_reached
                = svc.stats.max_speed_reached
            ∧ svc.handle_enter_key.stats.level_start_times
                = svc.stats.level_start_times
            ∧ svc.handle_enter_key.stats.level_completion_times
                = svc.stats.level_completion_times
            ∧ svc.handle_enter_key.stats.level_end_times
                = svc.stats.level_end_times
            ∧ svc.handle_enter_key.stats.completed_levels
                = svc.stats.completed_levels
            ∧ svc.handle_enter_key.stats.level_started
                = ainsert svc.stats.level_started (svc.current_level + 1) false) := by
  constructor
  · intro hfin
    have h1 : svc.handle_enter_key = { svc with all_levels_complete := true } := by
      rw [GameService.handle_enter_key]
      rw [if_pos (by simp [hlc, hal])]
      rw [if_neg hfin]
    refine ⟨h1, ?_⟩
    rw [h1, GameService.handle_enter_key]
    rw [if_neg (by simp)]
  · intro hnf
    have h1 : svc.handle_enter_key = svc.set_level (svc.current_level + 1) := by
      rw [GameService.handle_enter_key]
      rw [if_pos (by simp [hlc, hal])]
      rw [if_pos hnf]
    rw [h1]
    exact ⟨rfl, rfl, rfl, rfl, rfl, rfl, rfl, rfl, rfl, rfl, rfl, rfl⟩

/-- Witness for C9: applied on the final level (4) and on level 1. -/
theorem C9_witness :
    (GameService.handle_enter_key
        ⟨false, false, 4, true, false, 0, "", ⟨35, ⟨0, 0, 100, none, 0, 0⟩⟩,
          ⟨0, 0, 0, 0, [], [], [], [], []⟩⟩
      = ⟨false, false, 4, true, true, 0, "", ⟨35, ⟨0, 0, 100, none, 0, 0⟩⟩,
          ⟨0, 0, 0, 0, [], [], [], [], []⟩⟩
        ∧ (GameService.handle_enter_key
            ⟨false, false, 4, true, false, 0, "", ⟨35, ⟨0, 0, 100, none, 0, 0⟩⟩,
              ⟨0, 0, 0, 0, [], [], [], [], []⟩⟩).handle_enter_key
          = GameService.handle_enter_key
              ⟨false, false, 4, true, false, 0, "", ⟨35, ⟨0, 0, 100, none, 0, 0⟩⟩,
                ⟨0, 0, 0, 0, [], [], [], [], []⟩⟩)
      ∧ ((GameService.handle_enter_key
            ⟨false, false, 1, true, false, 0, "", ⟨35, ⟨5, 100, 80, some "left", 500, 0⟩⟩,
              ⟨5, 10, 8, 0, [(1, 0)], [(1, 12)], [(1, 900)], [(1, true)], [1]⟩⟩).current_level
          = 2
        ∧ (GameService.handle_enter_key
            ⟨false, false, 1, true, false, 0, "", ⟨35, ⟨5, 100, 80, some "left", 500, 0⟩⟩,
              ⟨5, 10, 8, 0, [(1, 0)], [(1, 12)], [(1, 900)], [(1, true)], [1]⟩⟩).physics.state
          = {}) := by
  have h := C9_amended_advance_level
    ⟨false, false, 4, true, false, 0, "", ⟨35, ⟨0, 0, 100, none, 0, 0⟩⟩,
      ⟨0, 0, 0, 0, [], [], [], [], []⟩⟩ rfl rfl
  have h2 := C9_amended_advance_level
    ⟨false, false, 1, true, false, 0, "", ⟨35, ⟨5, 100, 80, some "left", 500, 0⟩⟩,
      ⟨5, 10, 8, 0, [(1, 0)], [(1, 12)], [(1, 900)], [(1, true)], [1]⟩⟩ rfl rfl
  obtain ⟨ha, hb⟩ := h.1 (by decide)
  obtain ⟨hc, hd, -⟩ := h2.2 (by decide)
  exact ⟨⟨ha, hb⟩, hc, hd⟩

end FixieDash
